import Mathlib

/-!
Shallow embedding of the request-handling core of netology-group/storage
(src/app/mod.rs): action mapping, resource addressing, signed-request
assembly, and the three request handlers (Object read, Set read, Sign),
with external collaborators (audience estimator, authorization provider,
storage client) modelled as oracle functions and every outgoing call
recorded in an event trace.
-/

/-- Outcome of the asynchronous authorize call issued by svc_authz:
allow, deny, or a transport/provider failure. -/
inductive AuthzOutcome where
  | allow
  | deny
  | error (reason : String)
deriving DecidableEq

/-- A request-scoped error value (tower_web Error): kind, title, HTTP
status code and detail, as assembled by Error::builder in the source. -/
structure ApiError where
  kind : String
  title : String
  status : Nat
  detail : String
deriving DecidableEq

/-- Modelled from the spec: util::Subject is defined in the util module,
which is not under src/; the spec says the authenticated caller identity
carries an account identifier and the audience claimed by its credential. -/
structure Subject where
  account_id : String
  audience : String
deriving DecidableEq

/-- Request body of the signing endpoint (struct SignPayload in the
source); headers is a map from header name to value, embedded here as an
association list in iteration order. -/
structure SignPayload where
  bucket : String
  set : Option String
  object : String
  method : String
  headers : List (String × String)
deriving DecidableEq

/-- Success body of the signing endpoint (struct SignResponse, status 200). -/
structure SignResponse where
  uri : String
deriving DecidableEq

/-- An HTTP response as built in the source: status code, optional
location header, body. -/
structure HttpResponse where
  status : Nat
  location : Option String
  body : String
deriving DecidableEq

/-- util::S3SignedRequestBuilder state: accumulates method, bucket,
canonical object key and header overrides (the builder internals are in
the util module; its accumulating interface is as used in src/app/mod.rs). -/
structure S3SignedRequestBuilder where
  method? : Option String := none
  bucket? : Option String := none
  object? : Option String := none
  headers : List (String × String) := []
deriving DecidableEq

def S3SignedRequestBuilder.new : S3SignedRequestBuilder := {}

def S3SignedRequestBuilder.method (b : S3SignedRequestBuilder) (m : String) :
    S3SignedRequestBuilder :=
  { b with method? := some m }

def S3SignedRequestBuilder.bucket (b : S3SignedRequestBuilder) (v : String) :
    S3SignedRequestBuilder :=
  { b with bucket? := some v }

def S3SignedRequestBuilder.object (b : S3SignedRequestBuilder) (v : String) :
    S3SignedRequestBuilder :=
  { b with object? := some v }

def S3SignedRequestBuilder.add_header (b : S3SignedRequestBuilder) (k v : String) :
    S3SignedRequestBuilder :=
  { b with headers := b.headers ++ [(k, v)] }

/-- Decidable equality for fallible results, so that concrete runs of
the handlers can be checked by evaluation. -/
instance exceptDecEq {ε α : Type} [DecidableEq ε] [DecidableEq α] :
    DecidableEq (Except ε α) := fun a b =>
  match a, b with
  | Except.error e1, Except.error e2 =>
    if h : e1 = e2 then isTrue (by rw [h])
    else isFalse (fun hq => h (by cases hq; rfl))
  | Except.error _, Except.ok _ => isFalse (fun hq => Except.noConfusion hq)
  | Except.ok _, Except.error _ => isFalse (fun hq => Except.noConfusion hq)
  | Except.ok a1, Except.ok a2 =>
    if h : a1 = a2 then isTrue (by rw [h])
    else isFalse (fun hq => h (by cases hq; rfl))

/-- fn parse_action: HTTP method to authorization action verb
(src/app/mod.rs). -/
def parse_action (method : String) : Except String String :=
  match method with
  | "HEAD" => Except.ok "read"
  | "GET" => Except.ok "read"
  | "PUT" => Except.ok "update"
  | "DELETE" => Except.ok "delete"
  | m => Except.error ("invalid method = " ++ m)

/-- fn s3_object: canonical storage key for an object inside a set
(format "{set}.{object}" in the source). -/
def s3_object (set object : String) : String :=
  set ++ "." ++ object

/-- fn redirect: 303 See Other with the location header set to the given
URI and an empty body. -/
def redirect (uri : String) : HttpResponse :=
  { status := 303, location := some uri, body := "" }

/- ---------------------------------------------------------------- -/
/- Claim C4: action mapping -/

/-- Claim C4: parse_action maps HEAD and GET to read, PUT to update,
DELETE to delete, and fails with the unsupported-method error on every
other string; it has no other outcomes. -/
theorem parse_action_spec :
    ∀ m : String,
      parse_action m =
        if m = "HEAD" then Except.ok "read"
        else if m = "GET" then Except.ok "read"
        else if m = "PUT" then Except.ok "update"
        else if m = "DELETE" then Except.ok "delete"
        else Except.error ("invalid method = " ++ m) := by
  intro m
  unfold parse_action
  split <;> simp_all

/- ---------------------------------------------------------------- -/
/- Claim C6: canonical key -/

/-- Character-level shape of the canonical key. -/
theorem s3_object_data (set object : String) :
    (s3_object set object).data = set.data ++ '.' :: object.data := by
  show (set ++ "." ++ object).data = set.data ++ '.' :: object.data
  simp [String.data_append]

/-- Claim C6: the canonical storage key is the concatenation
set ++ "." ++ object, with a single ASCII period character as the
literal separator between the two unmodified strings (no escaping of
periods inside set or object). -/
theorem s3_object_canonical_key :
    ∀ set object : String,
      s3_object set object = set ++ "." ++ object ∧
      (s3_object set object).data = set.data ++ '.' :: object.data := by
  intro set object
  exact ⟨rfl, s3_object_data set object⟩

/- ---------------------------------------------------------------- -/
/- Claim C7: injectivity of the canonical key on period-free inputs -/

theorem append_dot_inj (l1 : List Char) : ∀ (l2 r1 r2 : List Char),
    '.' ∉ l1 → '.' ∉ l2 → l1 ++ '.' :: r1 = l2 ++ '.' :: r2 →
    l1 = l2 ∧ r1 = r2 := by
  induction l1 with
  | nil =>
    intro l2 r1 r2 _ h2 heq
    cases l2 with
    | nil => simpa using heq
    | cons c t =>
      simp only [List.nil_append, List.cons_append, List.cons.injEq] at heq
      exact absurd (heq.1 ▸ List.mem_cons_self _ _) h2
  | cons c t ih =>
    intro l2 r1 r2 h1 h2 heq
    cases l2 with
    | nil =>
      simp only [List.nil_append, List.cons_append, List.cons.injEq] at heq
      exact absurd (heq.1 ▸ List.mem_cons_self _ _) h1
    | cons c2 t2 =>
      simp only [List.cons_append, List.cons.injEq] at heq
      obtain ⟨hc, ht⟩ := heq
      have h := ih t2 r1 r2 (fun hm => h1 (List.mem_cons_of_mem _ hm))
        (fun hm => h2 (List.mem_cons_of_mem _ hm)) ht
      exact ⟨by rw [hc, h.1], h.2⟩

/-- Claim C7: on inputs in which neither string contains a period, the
canonical-key function is injective: equal keys force equal sets and
equal objects. -/
theorem s3_object_injective :
    ∀ s1 o1 s2 o2 : String,
      '.' ∉ s1.data → '.' ∉ o1.data → '.' ∉ s2.data → '.' ∉ o2.data →
      s3_object s1 o1 = s3_object s2 o2 → s1 = s2 ∧ o1 = o2 := by
  intro s1 o1 s2 o2 hs1 _ hs2 _ h
  have hdata : s1.data ++ '.' :: o1.data = s2.data ++ '.' :: o2.data := by
    rw [← s3_object_data s1 o1, ← s3_object_data s2 o2, h]
  have h := append_dot_inj s1.data s2.data o1.data o2.data hs1 hs2 hdata
  exact ⟨String.ext h.1, String.ext h.2⟩

/-- Witness for C7: a concrete application of the injectivity theorem. -/
theorem s3_object_injective_witness :
    ("thumbs" : String) = "thumbs" ∧ ("cat" : String) = "cat" :=
  s3_object_injective "thumbs" "cat" "thumbs" "cat"
    (by decide) (by decide) (by decide) (by decide) rfl

/- ---------------------------------------------------------------- -/
/- Environment and handlers -/

/-- External collaborators as oracle functions, at the interface boundary
fixed by the source and the spec: the audience estimator (may fail), the
per-audience authorization provider, and the storage client (pre-signed
URL computation and signed-request building). -/
structure Env where
  estimate : String → Except ApiError String
  authorize : String → Subject → List String → String → AuthzOutcome
  presignedUrl : String → String → String → String
  build : S3SignedRequestBuilder → Except ApiError String

/-- One outgoing call made while handling a request: a pre-signed URL
request to the storage client, a signed-request build against the
storage client, or an authorize call to the authorization provider
(recording the arguments and the provider outcome). -/
inductive Event where
  | presign (method bucket key : String)
  | build (b : S3SignedRequestBuilder)
  | authz (audience : String) (sub : Subject) (resource : List String)
      (action : String) (outcome : AuthzOutcome)
deriving DecidableEq

/-- True on calls to the storage client. -/
def Event.isStorage : Event → Bool
  | Event.presign _ _ _ => true
  | Event.build _ => true
  | Event.authz _ _ _ _ _ => false

/-- True on calls to the authorization provider. -/
def Event.isAuthz : Event → Bool
  | Event.authz _ _ _ _ _ => true
  | _ => false

/-- True unless the event is an authorize call whose resource path
differs from r. -/
def Event.resourceIs (r : List String) : Event → Bool
  | Event.authz _ _ res _ _ => res == r
  | _ => true

/-- Object::read (src/app/mod.rs): computes the authz object and action,
eagerly obtains the pre-signed GET URL from the storage client, then
estimates the audience; on success it issues the authorize call and
returns the redirect whatever the outcome is (the source continuation
then(|_| ...) discards the authorization result); on estimation failure
it returns the error. The first component is the trace of outgoing
calls in source order. -/
def Object.read (env : Env) (bucket object : String) (sub : Subject) :
    List Event × Except ApiError HttpResponse :=
  match env.estimate bucket with
  | Except.ok audience =>
      ([Event.presign "GET" bucket object,
        Event.authz audience sub ["buckets", bucket, "objects", object] "read"
          (env.authorize audience sub ["buckets", bucket, "objects", object] "read")],
       Except.ok (redirect (env.presignedUrl "GET" bucket object)))
  | Except.error err =>
      ([Event.presign "GET" bucket object], Except.error err)

/-- Set::read (src/app/mod.rs): as Object::read but the authz object is
the set and the storage key is s3_object set object. -/
def Set.read (env : Env) (bucket set object : String) (sub : Subject) :
    List Event × Except ApiError HttpResponse :=
  match env.estimate bucket with
  | Except.ok audience =>
      ([Event.presign "GET" bucket (s3_object set object),
        Event.authz audience sub ["buckets", bucket, "sets", set] "read"
          (env.authorize audience sub ["buckets", bucket, "sets", set] "read")],
       Except.ok (redirect (env.presignedUrl "GET" bucket (s3_object set object))))
  | Except.error err =>
      ([Event.presign "GET" bucket (s3_object set object)], Except.error err)

/-- The (object, zobj) match at the top of Sign::sign: with a set, the
storage key is s3_object set object and the authz object is the set;
without one, the key is the object itself and the authz object is the
object. -/
def signAddressing (body : SignPayload) : String × List String :=
  match body.set with
  | some set => (s3_object set body.object, ["buckets", body.bucket, "sets", set])
  | none => (body.object, ["buckets", body.bucket, "objects", body.object])

/-- The URI builder assembled in Sign::sign: method, bucket and the
canonical object key, then every payload header added in order. -/
def signBuilder (body : SignPayload) : S3SignedRequestBuilder :=
  body.headers.foldl (fun b kv => b.add_header kv.1 kv.2)
    (((S3SignedRequestBuilder.new.method body.method).bucket body.bucket).object
      (signAddressing body).1)

/-- Sign::sign (src/app/mod.rs): computes addressing, maps the method to
an action (early 403 sign_error on failure), builds and materializes the
signed URI via the storage client (early return on build failure), then
estimates the audience; on success it issues the authorize call and
returns the URI whatever the outcome is (the source continuation
then(|_| ...) discards the authorization result); on estimation failure
it returns the error. -/
def Sign.sign (env : Env) (body : SignPayload) (sub : Subject) :
    List Event × Except ApiError SignResponse :=
  match parse_action body.method with
  | Except.error err =>
      ([], Except.error { kind := "sign_error", title := "Error signing a request",
                          status := 403, detail := err })
  | Except.ok zact =>
    match env.build (signBuilder body) with
    | Except.error err => ([Event.build (signBuilder body)], Except.error err)
    | Except.ok uri =>
      match env.estimate body.bucket with
      | Except.ok audience =>
          ([Event.build (signBuilder body),
            Event.authz audience sub (signAddressing body).2 zact
              (env.authorize audience sub (signAddressing body).2 zact)],
           Except.ok { uri := uri })
      | Except.error err => ([Event.build (signBuilder body)], Except.error err)

/-- The error produced when a request that requires a subject has none. -/
def authzDeniedNoSubject : ApiError :=
  { kind := "authorization_denied", title := "Authorization denied",
    status := 403, detail := "no subject" }

/-- Modelled from the spec: the Subject extractor lives in the util
module, which is not under src/; per the spec, a Sign request with no
authenticated subject fails with an immediate authorization denial
before the handler body runs, with no storage call attempted. -/
def Sign.signEntry (env : Env) (body : SignPayload) (sub? : Option Subject) :
    List Event × Except ApiError SignResponse :=
  match sub? with
  | none => ([], Except.error authzDeniedNoSubject)
  | some sub => Sign.sign env body sub

/- ---------------------------------------------------------------- -/
/- Concrete environments and inputs used by witnesses and
   counterexamples -/

/-- A sample audience-estimation failure. -/
def sampleErr : ApiError :=
  { kind := "audience_error", title := "Audience estimation failed",
    status := 404, detail := "no rule matches the bucket" }

/-- A sample authenticated subject. -/
def subj : Subject := { account_id := "user", audience := "example.org" }

/-- An environment in which every call succeeds and authorization allows. -/
def allowEnv : Env :=
  { estimate := fun _ => Except.ok "aud",
    authorize := fun _ _ _ _ => AuthzOutcome.allow,
    presignedUrl := fun m b k => "https://s3.example/" ++ m ++ "/" ++ b ++ "/" ++ k,
    build := fun _ => Except.ok "signed-uri" }

/-- As allowEnv but the authorization provider denies. -/
def denyEnv : Env := { allowEnv with authorize := fun _ _ _ _ => AuthzOutcome.deny }

/-- As allowEnv but the authorize call fails with a transport error. -/
def provErrEnv : Env :=
  { allowEnv with authorize := fun _ _ _ _ => AuthzOutcome.error "transport failure" }

/-- As allowEnv but audience estimation fails on every bucket. -/
def estFailEnv : Env := { allowEnv with estimate := fun _ => Except.error sampleErr }

/-- A sample signing payload with no set. -/
def sampleBody : SignPayload :=
  { bucket := "media", set := none, object := "cat.png", method := "GET", headers := [] }

/-- The sample payload with an unsupported method. -/
def patchBody : SignPayload := { sampleBody with method := "PATCH" }

/- ---------------------------------------------------------------- -/
/- Claim C8: anonymous Sign requests -/

/-- Claim C8: a Sign request with no authenticated subject fails with an
immediate authorization denial, and the storage client is never called
(the trace is empty, so the count of storage calls is zero). -/
theorem sign_no_subject_denied_no_storage :
    ∀ (env : Env) (body : SignPayload),
      Sign.signEntry env body none = ([], Except.error authzDeniedNoSubject) ∧
      ((Sign.signEntry env body none).1.filter Event.isStorage).length = 0 := by
  intro env body
  exact ⟨rfl, rfl⟩

/- ---------------------------------------------------------------- -/
/- Claim C9: unsupported method on Sign -/

/-- Claim C9: a Sign request whose method the action mapping rejects
returns the 403 sign_error response built from the unsupported-method
error, and the trace is empty: no authorize call and no storage call is
issued, so the failure precedes every external call. -/
theorem sign_bad_method_short_circuits :
    ∀ (env : Env) (body : SignPayload) (sub : Subject) (e : String),
      parse_action body.method = Except.error e →
      Sign.sign env body sub =
        ([], Except.error { kind := "sign_error", title := "Error signing a request",
                            status := 403, detail := e }) := by
  intro env body sub e h
  simp [Sign.sign, h]

/-- Witness for C9: the PATCH method at a concrete environment. -/
theorem sign_bad_method_short_circuits_witness :
    Sign.sign allowEnv patchBody subj =
      ([], Except.error { kind := "sign_error", title := "Error signing a request",
                          status := 403, detail := "invalid method = PATCH" }) :=
  sign_bad_method_short_circuits allowEnv patchBody subj "invalid method = PATCH" rfl

/- ---------------------------------------------------------------- -/
/- Claim C5: authorization resource paths -/

/-- Claim C5: with a set present the authorization resource path is
exactly ["buckets", bucket, "sets", set] and does not depend on the
object (nor on the method or headers); without a set it is exactly
["buckets", bucket, "objects", object]; and every authorize call issued
by the Object-read, Set-read and Sign flows carries exactly the path
computed this way. -/
theorem authz_resource_path_spec :
    ∀ (env : Env) (bucket set object object2 method method2 : String)
      (hs hs2 : List (String × String)) (sub : Subject) (body : SignPayload),
      (signAddressing { bucket := bucket, set := some set, object := object,
                        method := method, headers := hs }).2
        = ["buckets", bucket, "sets", set] ∧
      (signAddressing { bucket := bucket, set := some set, object := object,
                        method := method, headers := hs }).2
        = (signAddressing { bucket := bucket, set := some set, object := object2,
                            method := method2, headers := hs2 }).2 ∧
      (signAddressing { bucket := bucket, set := none, object := object,
                        method := method, headers := hs }).2
        = ["buckets", bucket, "objects", object] ∧
      ((Object.read env bucket object sub).1.all
        (Event.resourceIs ["buckets", bucket, "objects", object]) = true) ∧
      ((Set.read env bucket set object sub).1.all
        (Event.resourceIs ["buckets", bucket, "sets", set]) = true) ∧
      ((Sign.sign env body sub).1.all
        (Event.resourceIs (signAddressing body).2) = true) := by
  intro env bucket set object object2 method method2 hs hs2 sub body
  refine ⟨rfl, rfl, rfl, ?_, ?_, ?_⟩
  · unfold Object.read
    cases hE : env.estimate bucket <;> simp [Event.resourceIs]
  · unfold Set.read
    cases hE : env.estimate bucket <;> simp [Event.resourceIs]
  · unfold Sign.sign
    cases hA : parse_action body.method with
    | error e => simp
    | ok zact =>
      cases hB : env.build (signBuilder body) with
      | error e => simp [Event.resourceIs]
      | ok uri =>
        cases hE : env.estimate body.bucket <;> simp [Event.resourceIs]

/- ---------------------------------------------------------------- -/
/- Claim C1 (code defect): the authorization outcome is discarded -/

/-- Claim C1 fails on the code: with the provider denying, all three
flows still return the artifact — Object-read and Set-read return the
303 redirect carrying the pre-signed URL and Sign returns a body with
the signed URI — while the trace records that the authorize call
returned deny (the source continuation then(|_| ...) discards the
authorization result). -/
theorem denied_request_still_receives_artifact :
    (Object.read denyEnv "media" "cat.png" subj).2
      = Except.ok (redirect "https://s3.example/GET/media/cat.png") ∧
    (Set.read denyEnv "media" "thumbs" "cat.png" subj).2
      = Except.ok (redirect "https://s3.example/GET/media/thumbs.cat.png") ∧
    (Sign.sign denyEnv sampleBody subj).2 = Except.ok { uri := "signed-uri" } ∧
    Event.authz "aud" subj ["buckets", "media", "objects", "cat.png"] "read"
        AuthzOutcome.deny ∈ (Sign.sign denyEnv sampleBody subj).1 := by
  decide

/- ---------------------------------------------------------------- -/
/- Claim C2 (code defect): provider errors act as implicit allow -/

/-- Claim C2 fails on the code: when the authorize call fails with a
transport error, all three flows still return the success artifact
rather than an error response distinguishable from allow (the provider
failure is recorded in the trace but discarded by the handler). -/
theorem provider_error_still_receives_artifact :
    (Object.read provErrEnv "media" "cat.png" subj).2
      = Except.ok (redirect "https://s3.example/GET/media/cat.png") ∧
    (Set.read provErrEnv "media" "thumbs" "cat.png" subj).2
      = Except.ok (redirect "https://s3.example/GET/media/thumbs.cat.png") ∧
    (Sign.sign provErrEnv sampleBody subj).2 = Except.ok { uri := "signed-uri" } ∧
    Event.authz "aud" subj ["buckets", "media", "objects", "cat.png"] "read"
        (AuthzOutcome.error "transport failure")
      ∈ (Sign.sign provErrEnv sampleBody subj).1 := by
  decide

/- ---------------------------------------------------------------- -/
/- Claim C3 (corrected): the storage client is contacted eagerly -/

/-- Claim C3 is false on the code at concrete inputs: on an Object-read
whose audience estimation fails, the storage client has already been
asked for the pre-signed URL (the storage-call trace is nonempty, not
empty as the claim requires), and on a denied Object-read the handler
does not return an error response at all but the redirect itself. -/
theorem storage_called_on_failing_path_cex :
    ((Object.read estFailEnv "media" "cat.png" subj).1.filter Event.isStorage
      = [Event.presign "GET" "media" "cat.png"]) ∧
    ((Object.read estFailEnv "media" "cat.png" subj).1.filter Event.isStorage ≠ []) ∧
    ((Object.read denyEnv "media" "cat.png" subj).2
      = Except.ok (redirect "https://s3.example/GET/media/cat.png")) := by
  decide

/-- Claim C3 as amended: when audience estimation fails, the handler
returns the estimation error without issuing the authorize call, but the
storage client has already been called exactly once on that path:
Object-read and Set-read have already requested the pre-signed URL, and
Sign has already built the signed URI. -/
theorem est_failure_errors_after_storage_call :
    ∀ (env : Env) (bucket set object : String) (sub : Subject) (e : ApiError)
      (body : SignPayload) (zact uri : String),
      env.estimate bucket = Except.error e →
      env.estimate body.bucket = Except.error e →
      parse_action body.method = Except.ok zact →
      env.build (signBuilder body) = Except.ok uri →
      Object.read env bucket object sub
        = ([Event.presign "GET" bucket object], Except.error e) ∧
      Set.read env bucket set object sub
        = ([Event.presign "GET" bucket (s3_object set object)], Except.error e) ∧
      Sign.sign env body sub = ([Event.build (signBuilder body)], Except.error e) := by
  intro env bucket set object sub e body zact uri h1 h2 h3 h4
  refine ⟨?_, ?_, ?_⟩
  · simp [Object.read, h1]
  · simp [Set.read, h1]
  · simp [Sign.sign, h3, h4, h2]

/-- Witness for the amended C3: a concrete failing environment. -/
theorem est_failure_errors_after_storage_call_witness :
    Object.read estFailEnv "media" "cat.png" subj
      = ([Event.presign "GET" "media" "cat.png"], Except.error sampleErr) ∧
    Set.read estFailEnv "media" "thumbs" "cat.png" subj
      = ([Event.presign "GET" "media" (s3_object "thumbs" "cat.png")],
         Except.error sampleErr) ∧
    Sign.sign estFailEnv sampleBody subj
      = ([Event.build (signBuilder sampleBody)], Except.error sampleErr) :=
  est_failure_errors_after_storage_call estFailEnv "media" "thumbs" "cat.png" subj
    sampleErr sampleBody "read" "signed-uri" rfl rfl rfl rfl

/- ---------------------------------------------------------------- -/
/- Claim C10: the signed method is the authorized method -/

/-- Adding headers never changes the builder's method field. -/
theorem foldl_add_header_method (hs : List (String × String)) :
    ∀ b : S3SignedRequestBuilder,
      (hs.foldl (fun b kv => b.add_header kv.1 kv.2) b).method? = b.method? := by
  induction hs with
  | nil => intro b; rfl
  | cons kv t ih => intro b; exact ih (b.add_header kv.1 kv.2)

/-- The builder assembled by Sign carries exactly the payload's method. -/
theorem signBuilder_method (body : SignPayload) :
    (signBuilder body).method? = some body.method := by
  unfold signBuilder
  rw [foldl_add_header_method]
  rfl

/-- Claim C10: in any Sign request whose trace contains both a build call
against the storage client and an authorize call, the builder's method is
exactly the payload's method string and the authorized action is exactly
the one parse_action derives from that same string. -/
theorem signed_method_matches_authorized_action :
    ∀ (env : Env) (body : SignPayload) (sub : Subject)
      (aud : String) (s : Subject) (r : List String) (act : String)
      (outc : AuthzOutcome) (bl : S3SignedRequestBuilder),
      Event.authz aud s r act outc ∈ (Sign.sign env body sub).1 →
      Event.build bl ∈ (Sign.sign env body sub).1 →
      bl.method? = some body.method ∧ parse_action body.method = Except.ok act := by
  intro env body sub aud s r act outc bl hA hB
  unfold Sign.sign at hA hB
  cases hpa : parse_action body.method with
  | error e =>
    rw [hpa] at hA
    simp at hA
  | ok zact =>
    rw [hpa] at hA hB
    cases hb : env.build (signBuilder body) with
    | error e =>
      rw [hb] at hA
      simp at hA
    | ok uri =>
      rw [hb] at hA hB
      cases he : env.estimate body.bucket with
      | error e2 =>
        rw [he] at hA
        simp at hA
      | ok a =>
        rw [he] at hA hB
        simp only [List.mem_cons, List.mem_singleton, List.not_mem_nil,
          or_false] at hA hB
        rcases hA with hA | hA
        · exact Event.noConfusion hA
        · rw [Event.authz.injEq] at hA
          obtain ⟨-, -, -, hact, -⟩ := hA
          rcases hB with hB | hB
          · rw [Event.build.injEq] at hB
            subst hB
            refine ⟨signBuilder_method body, ?_⟩
            rw [hact]
          · exact Event.noConfusion hB

/-- Witness for C10: a concrete allowed Sign request. -/
theorem signed_method_matches_authorized_action_witness :
    (signBuilder sampleBody).method? = some "GET" ∧
    parse_action "GET" = Except.ok "read" :=
  signed_method_matches_authorized_action allowEnv sampleBody subj
    "aud" subj ["buckets", "media", "objects", "cat.png"] "read" AuthzOutcome.allow
    (signBuilder sampleBody) (by decide) (by decide)
